import Mathlib

/-
  Verification development for the fate_shift timing engine
  (src/backend/advanced_timing.py, src/backend/astrological_calculator.py).

  Shallow embedding conventions:
  * Python floats are modelled as exact rationals (ℚ); decimal literals such as
    365.25, 24.12 and 13.333333 denote the exact rationals the source writes.
  * Instants are measured in whole days since the birth instant (the source
    uses `(date - birth).days`, an integer number of days).
  * `int(x)` (truncation toward zero) is `pyTrunc`; float `%` is `pyMod`;
    Python list indexing (negative indices wrap, out-of-range raises) is
    `pyListGet`, with `none` standing for the raised IndexError.
  * Calls into the Swiss Ephemeris / natal-chart layer are abstracted as
    explicit parameters (natal longitudes, an eclipse position oracle, the
    transit list); `datetime.now()` reads are an explicit `now` parameter.
-/

/-- The celestial bodies named by the timing module (seven classical bodies,
the Vedic nodes rahu/ketu, and the Firdaria lunar-node placeholders). -/
inductive Body where
  | sun | moon | mercury | venus | mars | jupiter | saturn
  | rahu | ketu | north_node | south_node
deriving DecidableEq, Repr

/-- The twelve zodiac signs, in zodiacal order. -/
inductive Sign where
  | Aries | Taurus | Gemini | Cancer | Leo | Virgo
  | Libra | Scorpio | Sagittarius | Capricorn | Aquarius | Pisces
deriving DecidableEq, Repr

/-- Aspect names used by `calculate_transits`. -/
inductive Aspect where
  | conjunction | opposition | square | trine | sextile
deriving DecidableEq, Repr

/-- The four natal check points of `calculate_eclipse_sensitivity`. -/
inductive PointId where
  | psun | pmoon | pasc | pmc
deriving DecidableEq, Repr

open Body Sign

/-- Python `int()` applied to a float: truncation toward zero. -/
def pyTrunc (q : ℚ) : ℤ := if q < 0 then -(⌊-q⌋) else ⌊q⌋

/-- Python float `%`: `x - ⌊x / y⌋ * y` (floor-based remainder). -/
def pyMod (x y : ℚ) : ℚ := x - ⌊x / y⌋ * y

/-- Python list indexing `l[i]`: negative indices count from the end,
out-of-range indexing raises IndexError (modelled as `none`). -/
def pyListGet {α : Type} (l : List α) (i : ℤ) : Option α :=
  let j := if i < 0 then (l.length : ℤ) + i else i
  if 0 ≤ j then l.get? j.toNat else none

/-! ## Period Registry (static tables of advanced_timing.py) -/

/-- `dasha_sequence` of `calculate_vimshottari_dasha` (lines 187-191). -/
def dashaSequence : List (Body × ℚ) :=
  [(ketu, 7), (venus, 20), (sun, 6), (moon, 10),
   (mars, 7), (rahu, 18), (jupiter, 16), (saturn, 19), (mercury, 17)]

/-- The 9-ruler Vimshottari order (`sequence` of `_calculate_antardasha`,
also the base block of `nakshatra_rulers`). -/
def vimSequence : List Body :=
  [ketu, venus, sun, moon, mars, rahu, jupiter, saturn, mercury]

/-- `dasha_years` dict of `_calculate_antardasha` (lines 250-253); the
source dict only carries the nine Vimshottari rulers, and only those are
ever looked up, so the value on the remaining constructors is irrelevant. -/
def dashaYearsTable : Body → ℚ
  | ketu => 7 | venus => 20 | sun => 6 | moon => 10
  | mars => 7 | rahu => 18 | jupiter => 16 | saturn => 19 | mercury => 17
  | _ => 0

/-- Day-birth Firdaria sequence (`calculate_firdaria`, lines 325-329). -/
def firdariaDaySequence : List (Body × ℚ) :=
  [(sun, 10), (venus, 8), (mercury, 13), (moon, 9),
   (saturn, 11), (jupiter, 12), (mars, 7), (north_node, 3), (south_node, 2)]

/-- Night-birth Firdaria sequence (`calculate_firdaria`, lines 331-335). -/
def firdariaNightSequence : List (Body × ℚ) :=
  [(moon, 9), (saturn, 11), (jupiter, 12), (mars, 7),
   (sun, 10), (venus, 8), (mercury, 13), (north_node, 3), (south_node, 2)]

/-- `sign_periods` dict of `calculate_zodiacal_releasing` (lines 34-38). -/
def signPeriods : Sign → ℚ
  | Aries => 15 | Taurus => 8 | Gemini => 20 | Cancer => 25
  | Leo => 19 | Virgo => 20 | Libra => 8 | Scorpio => 15
  | Sagittarius => 12 | Capricorn => 27 | Aquarius => 30 | Pisces => 12

/-- The zodiac in order, as the `signs` list of the sign helpers. -/
def zodiacSigns : List Sign :=
  [Aries, Taurus, Gemini, Cancer, Leo, Virgo,
   Libra, Scorpio, Sagittarius, Capricorn, Aquarius, Pisces]

/-- `_get_sign_ruler`: traditional rulerships (lines 519-527). -/
def getSignRuler : Sign → Body
  | Aries => mars | Taurus => venus | Gemini => mercury
  | Cancer => moon | Leo => sun | Virgo => mercury
  | Libra => venus | Scorpio => mars | Sagittarius => jupiter
  | Capricorn => saturn | Aquarius => saturn | Pisces => jupiter

/-- `_get_next_sign`: next sign in zodiacal order (lines 585-590). -/
def getNextSign (c : Sign) : Sign :=
  zodiacSigns.getD ((zodiacSigns.indexOf c + 1) % 12) Aries

/-- `_get_next_zr_sign`: eleven signs forward, for ZR sub-periods
(lines 592-598). -/
def getNextZrSign (c : Sign) : Sign :=
  zodiacSigns.getD ((zodiacSigns.indexOf c + 11) % 12) Aries

/-! ## Zodiacal Releasing (calculate_zodiacal_releasing, lines 21-86) -/

/-- The per-level span in days of a sign whose table value is `periodYears`
(lines 56-65): level 1 uses 360-day years, level 2 uses 30-day months,
level 3 uses 7-day weeks, level 4 uses single days. -/
def zrPeriodDays (level : ℕ) (periodYears : ℚ) : ℚ :=
  if level = 2 then periodYears * 30
  else if level = 3 then periodYears * 7
  else if level = 4 then periodYears
  else periodYears * 360

/-- `_check_loosening_bond` (lines 116-119). -/
def checkLooseningBond (s : Sign) (level : ℕ) : Bool :=
  (getSignRuler s == mars || getSignRuler s == saturn) && decide (2 ≤ level)

/-- One entry of the `periods` list built by the ZR walk.  The `peak` flag
comes from a caller-supplied `_is_peak_period` strategy (it depends on the
natal Lot of Fortune, a value supplied by the ephemeris layer). -/
structure ZRPeriod where
  level : ℕ
  sign : Sign
  ruler : Body
  start_days : ℚ
  end_days : ℚ
  peak : Bool
  loosening : Bool
deriving DecidableEq, Repr

/-- The mutable cursor of the ZR while-loop: `current_days`, `current_sign`,
`level`. -/
structure ZRState where
  currentDays : ℚ
  currentSign : Sign
  level : ℕ
deriving DecidableEq, Repr

/-- The span of the current interval: `period_days` as computed at the top of
each loop iteration. -/
def zrSpan (st : ZRState) : ℚ := zrPeriodDays st.level (signPeriods st.currentSign)

/-- One iteration of the ZR while-loop body (lines 56-84): emit the current
period, then either descend one level (when the interval would carry past the
query instant) or advance to the next sign at the same level. -/
def zrLoopBody (pk : Sign → Bool) (daysElapsed : ℚ) (st : ZRState) : ZRPeriod × ZRState :=
  let periodDays := zrSpan st
  let p : ZRPeriod :=
    ⟨st.level, st.currentSign, getSignRuler st.currentSign, st.currentDays,
     st.currentDays + periodDays, pk st.currentSign,
     checkLooseningBond st.currentSign st.level⟩
  if daysElapsed < st.currentDays + periodDays then
    (p, ⟨st.currentDays,
         if st.level + 1 ≤ 4 then getNextZrSign st.currentSign else st.currentSign,
         st.level + 1⟩)
  else
    (p, ⟨st.currentDays + periodDays, getNextSign st.currentSign, st.level⟩)

/-- The ZR while-loop (`while current_days < days_elapsed and level <= 4`),
with explicit fuel; the source loop terminates because every advance adds a
positive span and every descent raises the bounded level. -/
def zrWalk (pk : Sign → Bool) (daysElapsed : ℚ) :
    ℕ → ZRState → List ZRPeriod → List ZRPeriod
  | 0, _, acc => acc
  | fuel + 1, st, acc =>
    if st.currentDays < daysElapsed ∧ st.level ≤ 4 then
      let r := zrLoopBody pk daysElapsed st
      zrWalk pk daysElapsed fuel r.2 (acc ++ [r.1])
    else acc

/-- `calculate_zodiacal_releasing`, with the starting sign (derived from the
Lot of Fortune or Spirit by the ephemeris layer) passed explicitly. -/
def calculate_zodiacal_releasing (pk : Sign → Bool) (startSign : Sign)
    (daysElapsed : ℚ) (fuel : ℕ) : List ZRPeriod :=
  zrWalk pk daysElapsed fuel ⟨0, startSign, 1⟩ []

/-! ## Day-birth tests and Lot of Spirit -/

/-- The day-birth test of `_calculate_lot_of_spirit` (lines 93-94). -/
def spirit_is_day_birth (sunLon ascLon : ℚ) : Bool :=
  decide (sunLon > ascLon) || decide (sunLon < ascLon - 180)

/-- The day-birth test of `calculate_firdaria` (lines 321-322). -/
def firdaria_is_day_birth (sunLon ascLon : ℚ) : Bool :=
  decide (sunLon > ascLon) || decide (sunLon < ascLon - 180)

/-- `_calculate_lot_of_spirit` (lines 88-108). -/
def calculate_lot_of_spirit (sunLon moonLon ascLon : ℚ) : ℚ :=
  let spirit :=
    if spirit_is_day_birth sunLon ascLon then ascLon + sunLon - moonLon
    else ascLon + moonLon - sunLon
  if spirit < 0 then spirit + 360
  else if spirit > 360 then spirit - 360
  else spirit

/-! ## Firdaria (calculate_firdaria and _calculate_firdaria_subperiod) -/

/-- The sub-period ruler list of `_calculate_firdaria_subperiod`
(lines 367-372): the fixed seven-body list with the major ruler, when
present, removed and re-inserted at the front (`list.remove` +
`list.insert(0, ...)`). -/
def firdariaSubPlanets (major : Body) : List Body :=
  let planets := [sun, venus, mercury, moon, saturn, jupiter, mars]
  if major ∈ planets then major :: planets.erase major else planets

/-- Modelled from the spec: section 4.5 orders the sub-periods "by rotating a
fixed 7-body list (Sun, Venus, Mercury, Moon, Saturn, Jupiter, Mars) to start
with the major period's own ruler", the canonical order being kept when the
ruler is absent.  This rotation is compared against the source's
move-to-front list `firdariaSubPlanets`. -/
def firdariaSubPlanetsSpec (major : Body) : List Body :=
  let planets := [sun, venus, mercury, moon, saturn, jupiter, mars]
  if major ∈ planets then
    planets.drop (planets.indexOf major) ++ planets.take (planets.indexOf major)
  else planets

/-- The dict returned by `_calculate_firdaria_subperiod`. -/
structure SubPeriod where
  ruler : Body
  years : ℚ
  position : ℤ
deriving DecidableEq, Repr

/-- `_calculate_firdaria_subperiod` (lines 365-383). -/
def calculate_firdaria_subperiod (major : Body) (totalYears yearsIn : ℚ) :
    Option SubPeriod :=
  let planets := firdariaSubPlanets major
  let subYears := totalYears / 7
  let currentSub := pyTrunc (yearsIn / subYears)
  if currentSub < (planets.length : ℤ) then
    (pyListGet planets currentSub).map (fun r => ⟨r, subYears, currentSub + 1⟩)
  else none

/-- The start offset, in years into the major period, of the `k`-th Firdaria
sub-period: sub-period boundaries fall every `sub_years = total_years / 7`. -/
def firdariaSubStart (total : ℚ) (k : ℕ) : ℚ := k * (total / 7)

/-- The dict returned by `calculate_firdaria` (the `sequence` key, a copy of
the registry table, is omitted). -/
structure FirdariaResult where
  major_period : Body
  years_in : ℚ
  years_remaining : ℚ
  sub_period : Option SubPeriod
  period_years : ℚ
deriving DecidableEq, Repr

/-- The `for planet, years in sequence` accumulation loop of
`calculate_firdaria` (lines 341-363); falls off the end (`return None`) when
no interval of the single 75-year pass contains the elapsed years. -/
def firdariaLoop (yearsElapsed : ℚ) :
    List (Body × ℚ) → ℚ → Option FirdariaResult
  | [], _ => none
  | (planet, years) :: rest, currentYears =>
    if currentYears ≤ yearsElapsed ∧ yearsElapsed < currentYears + years then
      some ⟨planet, yearsElapsed - currentYears,
            years - (yearsElapsed - currentYears),
            calculate_firdaria_subperiod planet years (yearsElapsed - currentYears),
            years⟩
    else firdariaLoop yearsElapsed rest (currentYears + years)

/-- `calculate_firdaria` (lines 310-363), with the natal Sun/Ascendant
longitudes passed explicitly and the query instant given as whole days since
birth. -/
def calculate_firdaria (sunLon ascLon : ℚ) (daysElapsed : ℤ) :
    Option FirdariaResult :=
  let sequence :=
    if firdaria_is_day_birth sunLon ascLon then firdariaDaySequence
    else firdariaNightSequence
  let yearsElapsed := (daysElapsed : ℚ) / 365.25
  firdariaLoop yearsElapsed sequence 0

/-! ## Vimshottari Dasha (calculate_vimshottari_dasha, _calculate_antardasha) -/

/-- The hardcoded Lahiri ayanamsa of `calculate_vimshottari_dasha`
(line 177). -/
def ayanamsa : ℚ := 24.12

/-- The nakshatra band width written in the source (lines 183-184): the
truncated decimal `13.333333`, not the exact 360/27. -/
def bandWidth : ℚ := 13.333333

/-- Sidereal Moon longitude (lines 178-180): tropical minus ayanamsa, with a
single `+ 360` correction when negative. -/
def moonSidereal (moonTropical : ℚ) : ℚ :=
  let s := moonTropical - ayanamsa
  if s < 0 then s + 360 else s

/-- `nakshatra_rulers`: the 9-ruler list repeated three times (lines 194-195),
27 entries in all. -/
def nakshatraRulers : List Body := vimSequence ++ vimSequence ++ vimSequence

/-- The ruler and remaining years of the first Mahadasha. -/
structure VimStart where
  ruler : Body
  remainingYears : ℚ
deriving DecidableEq, Repr

/-- The starting-ruler and first-dasha computation of
`calculate_vimshottari_dasha` (lines 176-203): nakshatra index by integer
truncation, ruler lookup in the 27-entry list (IndexError modelled as
`none`), remaining years proportional to the unelapsed part of the band. -/
def vimshottariFirstDasha (moonTropical : ℚ) : Option VimStart :=
  let sid := moonSidereal moonTropical
  let nakshatra := pyTrunc (sid / bandWidth)
  let nakshatraDegree := pyMod sid bandWidth
  (pyListGet nakshatraRulers nakshatra).map (fun startingRuler =>
    let firstIdx := dashaSequence.findIdx (fun p => p.1 == startingRuler)
    let firstYears := (dashaSequence.getD firstIdx (ketu, 7)).2
    let elapsedPortion := nakshatraDegree / bandWidth
    ⟨startingRuler, firstYears * (1 - elapsedPortion)⟩)

/-- The `current_dasha` dict handed to `_calculate_antardasha`; instants are
in days since birth. -/
structure Mahadasha where
  mahadasha : Body
  start : ℚ
  stop : ℚ
  years : ℚ
deriving DecidableEq, Repr

/-- One antardasha dict (lines 270-275). -/
structure Antardasha where
  planet : Body
  start : ℚ
  stop : ℚ
  years : ℚ
deriving DecidableEq, Repr

/-- The antardasha sequence: the 9-ruler table rotated to start with the
mahadasha lord (`sequence[start_index:] + sequence[:start_index]`,
lines 256-259). -/
def antardashaRotation (lord : Body) : List Body :=
  vimSequence.drop (vimSequence.indexOf lord) ++
    vimSequence.take (vimSequence.indexOf lord)

/-- The antardasha-building loop of `_calculate_antardasha` (lines 261-283):
proportional years `(planet_years * mahadasha_years) / 120`, consecutive
starts, with the `break` once the running start passes the mahadasha end. -/
def antardashaLoop (m : Mahadasha) : List Body → ℚ → List Antardasha
  | [], _ => []
  | p :: rest, currentStart =>
    let years := dashaYearsTable p * m.years / 120
    let stop := currentStart + years * 365.25
    if m.stop < stop then [⟨p, currentStart, stop, years⟩]
    else ⟨p, currentStart, stop, years⟩ :: antardashaLoop m rest stop

/-- The full `antardashas` list built by `_calculate_antardasha`. -/
def calculate_antardasha (m : Mahadasha) : List Antardasha :=
  antardashaLoop m (antardashaRotation m.mahadasha) m.start

/-- Break-free reference form of the antardasha loop, used to reason about
`antardashaLoop` (the two agree whenever the break can never fire). -/
def antardashaPlain (m : Mahadasha) : List Body → ℚ → List Antardasha
  | [], _ => []
  | p :: rest, currentStart =>
    let years := dashaYearsTable p * m.years / 120
    ⟨p, currentStart, currentStart + years * 365.25, years⟩ ::
      antardashaPlain m rest (currentStart + years * 365.25)

/-- One entry of the `dashas` timeline of `calculate_vimshottari_dasha`. -/
structure DashaEntry where
  mahadasha : Body
  start : ℚ
  stop : ℚ
  years : ℚ
deriving DecidableEq, Repr

/-- The `while current_dasha_end < current_date + timedelta(days=365*10)`
timeline loop (lines 216-229), with explicit fuel: keep appending dashas, in
cyclic 9-ruler order, until the running end passes the query instant plus
3650 days. -/
def buildDashasAux (target : ℚ) :
    ℕ → ℚ → ℕ → List DashaEntry → List DashaEntry
  | 0, _, _, acc => acc
  | fuel + 1, currentEnd, idx, acc =>
    if currentEnd < target + 3650 then
      let p := dashaSequence.getD idx (ketu, 7)
      let stop := currentEnd + p.2 * 365.25
      buildDashasAux target fuel stop ((idx + 1) % 9)
        (acc ++ [⟨p.1, currentEnd, stop, p.2⟩])
    else acc

/-- The `dashas` timeline (lines 205-229): the shortened first dasha from
birth (day 0), then subsequent full dashas in cyclic order. -/
def buildDashas (startRuler : Body) (firstIdx : ℕ) (remaining : ℚ)
    (target : ℚ) (fuel : ℕ) : List DashaEntry :=
  buildDashasAux target fuel (remaining * 365.25) ((firstIdx + 1) % 9)
    [⟨startRuler, 0, remaining * 365.25, remaining⟩]

/-- The current-dasha search (lines 232-236): the first timeline entry with
`start <= current_date < end`. -/
def findCurrentDasha (l : List DashaEntry) (t : ℚ) : Option DashaEntry :=
  l.find? (fun e => decide (e.start ≤ t) && decide (t < e.stop))

/-- Enough fuel for the timeline loop at query instant `t` (each appended
dasha spans at least 6 × 365.25 days). -/
def vimFuel (t : ℚ) : ℕ := (⌈t⌉).toNat + 2

/-! ## Eclipse sensitivity and the composite scorer -/

/-- One entry of the `sensitive_points` list of
`calculate_eclipse_sensitivity` (lines 462-470). -/
structure EclipseHit where
  date : ℤ
  eclipse_degree : ℚ
  natal_point : PointId
  natal_degree : ℚ
  orb : ℚ
deriving DecidableEq, Repr

/-- `range(0, years_range * 365, 173)` for the default `years_range = 2`. -/
def eclipseCheckDays : List ℕ :=
  (List.range (2 * 365)).filter (fun d => d % 173 = 0)

/-- `calculate_eclipse_sensitivity` (lines 422-472) with its default
2-year range: the ephemeris is an oracle giving (sun, moon, node) longitudes
for a date, `now` is the `datetime.now()` read the source starts from, and
the four natal check points are passed explicitly.  A date within 18° of the
node is an eclipse; each natal point within a 5° orb yields one entry. -/
def eclipseSensitivity (eph : ℤ → ℚ × ℚ × ℚ) (nSun nMoon nAsc nMc : ℚ)
    (now : ℤ) : List EclipseHit :=
  eclipseCheckDays.foldl (fun acc days =>
    let checkDate := now + (days : ℤ)
    let pos := eph checkDate
    let sunPos := pos.1
    let nodePos := pos.2.2
    if |sunPos - nodePos| < 18 then
      acc ++ ([(PointId.psun, nSun), (PointId.pmoon, nMoon),
               (PointId.pasc, nAsc), (PointId.pmc, nMc)].foldl
        (fun acc2 pt =>
          if |sunPos - pt.2| < 5 then
            acc2 ++ [⟨checkDate, sunPos, pt.1, pt.2, |sunPos - pt.2|⟩]
          else acc2) [])
    else acc) []

/-- One entry of the transit list returned by `calculate_transits`. -/
structure Transit where
  transiting : Body
  natal : Body
  aspect : Aspect
deriving DecidableEq, Repr

/-- The eclipse-proximity accumulation of `composite_timing_analysis`
(lines 662-665): `+10` for every sensitive-point entry within 30 days. -/
def eclipseScore (hits : List EclipseHit) (current : ℤ) : ℕ :=
  hits.foldl (fun s e => if (e.date - current).natAbs < 30 then s + 10 else s) 0

/-- The per-date intensity score of `composite_timing_analysis`
(lines 646-667): hard transits ×3, malefic Vimshottari lord +5, malefic
Firdaria lord +4 (`None` when `calculate_firdaria` returned `None`), then
the eclipse-proximity bonus computed from `calculate_eclipse_sensitivity()`
(which starts from the wall-clock `now`). -/
def compositeScoreForDate (transits : List Transit) (dashaRuler : Body)
    (firdariaRuler : Option Body) (eph : ℤ → ℚ × ℚ × ℚ)
    (nSun nMoon nAsc nMc : ℚ) (now current : ℤ) : ℕ :=
  let hardTransits := transits.filter
    (fun t => t.aspect == Aspect.square || t.aspect == Aspect.opposition)
  let s1 := hardTransits.length * 3
  let s2 := s1 + (if dashaRuler ∈ [mars, saturn, rahu, ketu] then 5 else 0)
  let s3 := s2 +
    (if firdariaRuler ∈ [some mars, some saturn, some south_node] then 4 else 0)
  let eclipses := eclipseSensitivity eph nSun nMoon nAsc nMc now
  s3 + eclipseScore eclipses current

/-- The wall-clock-independent part of the per-date score. -/
def compositeBaseScore (transits : List Transit) (dashaRuler : Body)
    (firdariaRuler : Option Body) : ℕ :=
  (transits.filter
    (fun t => t.aspect == Aspect.square || t.aspect == Aspect.opposition)).length * 3
  + (if dashaRuler ∈ [mars, saturn, rahu, ketu] then 5 else 0)
  + (if firdariaRuler ∈ [some mars, some saturn, some south_node] then 4 else 0)

/-- The number of eclipse-sensitivity entries within 30 days of the scored
date; this is the only part of the score that reads the wall clock. -/
def eclipseProximityCount (eph : ℤ → ℚ × ℚ × ℚ) (nSun nMoon nAsc nMc : ℚ)
    (now current : ℤ) : ℕ :=
  ((eclipseSensitivity eph nSun nMoon nAsc nMc now).filter
    (fun e => (e.date - current).natAbs < 30)).length

/-! ## Helper lemmas -/

lemma firdariaSubPlanets_length (b : Body) : (firdariaSubPlanets b).length = 7 := by
  cases b <;> rfl

/-- On a nonnegative argument, Python truncation agrees with the floor. -/
lemma pyTrunc_of_nonneg {q : ℚ} (h : 0 ≤ q) : pyTrunc q = ⌊q⌋ := by
  unfold pyTrunc
  rw [if_neg (not_lt.2 h)]

/-- Evaluation of `_calculate_firdaria_subperiod` inside a major period:
the index truncates into `[0, 6]`, the list lookup succeeds, and the
sub-period carries `total / 7` years. -/
lemma firdaria_subperiod_eval (major : Body) (total yIn : ℚ)
    (hpos : 0 < total) (h0 : 0 ≤ yIn) (hlt : yIn < total) :
    0 ≤ pyTrunc (yIn / (total / 7)) ∧ pyTrunc (yIn / (total / 7)) ≤ 6 ∧
    ∃ r : Body,
      pyListGet (firdariaSubPlanets major) (pyTrunc (yIn / (total / 7))) = some r ∧
      calculate_firdaria_subperiod major total yIn =
        some ⟨r, total / 7, pyTrunc (yIn / (total / 7)) + 1⟩ := by
  have h7 : (0 : ℚ) < total / 7 := by positivity
  have hq0 : 0 ≤ yIn / (total / 7) := div_nonneg h0 h7.le
  have hq7 : yIn / (total / 7) < 7 := by
    rw [div_lt_iff₀ h7]
    have h77 : (7 : ℚ) * (total / 7) = total := by ring
    linarith [h77]
  have htr : pyTrunc (yIn / (total / 7)) = ⌊yIn / (total / 7)⌋ := pyTrunc_of_nonneg hq0
  have hfl0 : 0 ≤ ⌊yIn / (total / 7)⌋ := Int.floor_nonneg.2 hq0
  have hfl7 : ⌊yIn / (total / 7)⌋ < 7 := by
    rw [Int.floor_lt]
    exact_mod_cast hq7
  refine ⟨by rw [htr]; exact hfl0, by rw [htr]; omega, ?_⟩
  have hlen := firdariaSubPlanets_length major
  have hj : ¬ pyTrunc (yIn / (total / 7)) < 0 := by rw [htr]; omega
  have htoNat : (pyTrunc (yIn / (total / 7))).toNat < (firdariaSubPlanets major).length := by
    rw [hlen, htr]; omega
  cases hg : (firdariaSubPlanets major).get? (pyTrunc (yIn / (total / 7))).toNat with
  | none =>
    exact absurd (List.get?_eq_none.1 hg) (by omega)
  | some r =>
    refine ⟨r, ?_, ?_⟩
    · unfold pyListGet
      simp only [if_neg hj, if_pos (not_lt.1 hj)]
      exact hg
    · unfold calculate_firdaria_subperiod
      rw [if_pos (show pyTrunc (yIn / (total / 7)) < ((firdariaSubPlanets major).length : ℤ) by
        rw [hlen, htr]; exact_mod_cast hfl7)]
      unfold pyListGet
      simp only [if_neg hj, if_pos (not_lt.1 hj)]
      rw [hg]
      rfl

/-- Truncated index of an instant lying inside the `k`-th sub-interval. -/
lemma pyTrunc_div_subinterval (total yIn : ℚ) (k : ℕ) (hpos : 0 < total)
    (hk1 : (k : ℚ) * (total / 7) ≤ yIn) (hk2 : yIn < ((k : ℚ) + 1) * (total / 7)) :
    pyTrunc (yIn / (total / 7)) = k := by
  have h7 : (0 : ℚ) < total / 7 := by positivity
  have h0 : 0 ≤ yIn := le_trans (by positivity) hk1
  rw [pyTrunc_of_nonneg (div_nonneg h0 h7.le)]
  rw [Int.floor_eq_iff]
  constructor
  · rw [le_div_iff₀ h7]
    exact_mod_cast hk1
  · rw [div_lt_iff₀ h7]
    push_cast
    exact hk2

/-! ## Claim theorems -/

/-- C2 counterexample: the Zodiacal Releasing duration table
(15,8,20,25,19,20,8,15,12,27,30,12) sums to 211 years per full pass, not the
231 the claim states. -/
theorem zr_table_sum_is_211_not_231 :
    (zodiacSigns.map signPeriods).sum = 211 ∧
    (zodiacSigns.map signPeriods).sum ≠ (231 : ℚ) := by
  constructor <;> norm_num [zodiacSigns, signPeriods]

/-- C2 (amended): the Vimshottari ruler-years sum to 120, both Firdaria
sequences sum to 75, and the 12 Zodiacal Releasing sign-years — exactly the
published values 15,8,20,25,19,20,8,15,12,27,30,12 for Aries through
Pisces — sum to 211 for one full pass. -/
theorem registry_cycle_sums :
    (dashaSequence.map Prod.snd).sum = 120 ∧
    (firdariaDaySequence.map Prod.snd).sum = 75 ∧
    (firdariaNightSequence.map Prod.snd).sum = 75 ∧
    zodiacSigns.map signPeriods = [15, 8, 20, 25, 19, 20, 8, 15, 12, 27, 30, 12] ∧
    (zodiacSigns.map signPeriods).sum = 211 ∧
    dashaSequence.length = 9 ∧ firdariaDaySequence.length = 9 ∧
    firdariaNightSequence.length = 9 ∧ zodiacSigns.length = 12 := by
  refine ⟨?_, ?_, ?_, by decide, ?_, by decide, by decide, by decide, by decide⟩ <;>
    norm_num [dashaSequence, firdariaDaySequence, firdariaNightSequence,
      zodiacSigns, signPeriods]

/-- C4 counterexample: at level 2 a sign valued 19 (Leo) spans exactly
19 × 30 = 570 days — the claim's parenthetical "19 months is not 19×30 days"
is false of the code. -/
theorem zr_level2_is_fixed_thirty_day_months :
    zrPeriodDays 2 (signPeriods Leo) = 19 * 30 ∧
    zrPeriodDays 2 (signPeriods Leo) = 570 := by
  constructor <;> norm_num [zrPeriodDays, signPeriods]

/-- C4 (amended): the same numeric table is reused at every level with only
the calendar unit substituted, and each unit has a fixed day-length: a sign
valued n spans n×360 days at level 1 (360-day years), n×30 days at level 2
(30-day months), n×7 days at level 3, and n days at level 4; in particular a
Leo period (value 19) spans 19×360 days at level 1 and 19×30 days at
level 2. -/
theorem zr_unit_rescaling :
    (∀ n : ℚ, zrPeriodDays 1 n = n * 360 ∧ zrPeriodDays 2 n = n * 30 ∧
      zrPeriodDays 3 n = n * 7 ∧ zrPeriodDays 4 n = n) ∧
    signPeriods Leo = 19 ∧ zrPeriodDays 1 (signPeriods Leo) = 19 * 360 := by
  refine ⟨fun n => ⟨?_, ?_, ?_, ?_⟩, by decide,
    by norm_num [zrPeriodDays, signPeriods]⟩ <;> norm_num [zrPeriodDays]

/-- C10: the day-birth test used to pick the Lot of Spirit formula and the
day-birth test used to pick the Firdaria sequence are the same predicate:
both hold exactly when the natal Sun's longitude exceeds the Ascendant
longitude or is below the Ascendant longitude minus 180°. -/
theorem day_birth_tests_agree :
    ∀ sunLon ascLon : ℚ,
      spirit_is_day_birth sunLon ascLon = firdaria_is_day_birth sunLon ascLon ∧
      (spirit_is_day_birth sunLon ascLon = true ↔
        (sunLon > ascLon ∨ sunLon < ascLon - 180)) ∧
      (firdaria_is_day_birth sunLon ascLon = true ↔
        (sunLon > ascLon ∨ sunLon < ascLon - 180)) := by
  intro s a
  refine ⟨rfl, ?_, ?_⟩ <;>
    simp [spirit_is_day_birth, firdaria_is_day_birth]

/-- C1 counterexample: the sub-period ruler list is not the rotation of the
7-body list.  For the Venus-ruled major period (day birth, age 12.5 → 2.5
years into the 8-year Venus period, sub-index 2) the code's list is the
move-to-front list [venus, sun, mercury, ...] and it returns mercury, while
the third ruler of the Venus-first rotation is moon. -/
theorem firdaria_subrulers_not_rotation :
    calculate_firdaria_subperiod venus 8 (5 / 2) =
      some ⟨mercury, 8 / 7, 3⟩ ∧
    firdariaSubPlanets venus = [venus, sun, mercury, moon, saturn, jupiter, mars] ∧
    firdariaSubPlanetsSpec venus = [venus, mercury, moon, saturn, jupiter, mars, sun] ∧
    firdariaSubPlanets venus ≠ firdariaSubPlanetsSpec venus ∧
    (firdariaSubPlanetsSpec venus).getD 2 sun = moon ∧
    mercury ≠ moon := by
  refine ⟨?_, by decide, by decide, by decide, by decide, by decide⟩
  norm_num [calculate_firdaria_subperiod, firdariaSubPlanets, pyTrunc, pyListGet]
  decide

/-- C1 (amended): every major period splits into 7 equal sub-periods of
totalYears/7; the sub-ruler list is the fixed 7-body list with the major
ruler moved to the front (keeping the others' relative order) rather than a
rotation, node-ruled majors keeping the canonical order; the active
sub-period index is trunc(yearsIn / (totalYears/7)), which for
0 ≤ yearsIn < totalYears always lies in [0, 6], and the returned sub-period
carries that index's ruler, totalYears/7 years, and 1-based position. -/
theorem firdaria_subperiod_structure (major : Body) (total yearsIn : ℚ)
    (hpos : 0 < total) (h0 : 0 ≤ yearsIn) (hlt : yearsIn < total) :
    0 ≤ pyTrunc (yearsIn / (total / 7)) ∧
    pyTrunc (yearsIn / (total / 7)) ≤ 6 ∧
    (firdariaSubPlanets major).length = 7 ∧
    (∃ r : Body,
      pyListGet (firdariaSubPlanets major) (pyTrunc (yearsIn / (total / 7))) = some r ∧
      calculate_firdaria_subperiod major total yearsIn =
        some ⟨r, total / 7, pyTrunc (yearsIn / (total / 7)) + 1⟩) ∧
    firdariaSubPlanets north_node = [sun, venus, mercury, moon, saturn, jupiter, mars] ∧
    firdariaSubPlanets south_node = [sun, venus, mercury, moon, saturn, jupiter, mars] ∧
    (major ∈ [sun, venus, mercury, moon, saturn, jupiter, mars] →
      firdariaSubPlanets major =
        major :: [sun, venus, mercury, moon, saturn, jupiter, mars].erase major) := by
  obtain ⟨ha, hb, r, hr1, hr2⟩ := firdaria_subperiod_eval major total yearsIn hpos h0 hlt
  refine ⟨ha, hb, firdariaSubPlanets_length major, ⟨r, hr1, hr2⟩, by decide, by decide, ?_⟩
  intro hmem
  unfold firdariaSubPlanets
  rw [if_pos hmem]

/-- C1 witness: the amended statement evaluated for the Venus major period of
a day birth at age 12.5 years (2.5 years into the 8-year major period). -/
theorem firdaria_subperiod_structure_witness :
    0 ≤ pyTrunc ((5 / 2 : ℚ) / (8 / 7)) ∧
    pyTrunc ((5 / 2 : ℚ) / (8 / 7)) ≤ 6 ∧
    (firdariaSubPlanets venus).length = 7 ∧
    (∃ r : Body,
      pyListGet (firdariaSubPlanets venus) (pyTrunc ((5 / 2 : ℚ) / (8 / 7))) = some r ∧
      calculate_firdaria_subperiod venus 8 (5 / 2) =
        some ⟨r, 8 / 7, pyTrunc ((5 / 2 : ℚ) / (8 / 7)) + 1⟩) ∧
    firdariaSubPlanets north_node = [sun, venus, mercury, moon, saturn, jupiter, mars] ∧
    firdariaSubPlanets south_node = [sun, venus, mercury, moon, saturn, jupiter, mars] ∧
    (venus ∈ [sun, venus, mercury, moon, saturn, jupiter, mars] →
      firdariaSubPlanets venus =
        venus :: [sun, venus, mercury, moon, saturn, jupiter, mars].erase venus) :=
  firdaria_subperiod_structure venus 8 (5 / 2) (by norm_num) (by norm_num) (by norm_num)

lemma getNextZrSign_ne (s : Sign) : getNextZrSign s ≠ s := by
  cases s <;> decide

lemma getNextSign_getNextZrSign (s : Sign) : getNextSign (getNextZrSign s) = s := by
  cases s <;> rfl

/-- C5: in the ZR walk, a within-level advance (span does not carry past the
query instant) keeps the level, moves the day cursor by the span, and steps
to the next sign in zodiacal order (Pisces wrapping to Aries); when the span
would carry past the query instant the walk descends exactly one level
without moving the day cursor, and whenever a child level exists (new level
≤ 4) its starting sign is eleven positions forward — equivalently one back —
and never equals the parent's sign. -/
theorem zr_walk_step (pk : Sign → Bool) (de : ℚ) (st : ZRState)
    (hrun : st.currentDays < de) (hlev : st.level ≤ 4) :
    (∀ s : Sign, getNextZrSign s ≠ s) ∧
    getNextSign Pisces = Aries ∧
    (∀ s : Sign, getNextSign (getNextZrSign s) = s) ∧
    (de < st.currentDays + zrSpan st →
      (zrLoopBody pk de st).2.level = st.level + 1 ∧
      (zrLoopBody pk de st).2.currentDays = st.currentDays ∧
      (st.level + 1 ≤ 4 →
        (zrLoopBody pk de st).2.currentSign = getNextZrSign st.currentSign ∧
        (zrLoopBody pk de st).2.currentSign ≠ st.currentSign)) ∧
    (st.currentDays + zrSpan st ≤ de →
      (zrLoopBody pk de st).2.level = st.level ∧
      (zrLoopBody pk de st).2.currentDays = st.currentDays + zrSpan st ∧
      (zrLoopBody pk de st).2.currentSign = getNextSign st.currentSign) ∧
    (zrLoopBody pk de st).1.start_days = st.currentDays ∧
    (zrLoopBody pk de st).1.end_days = st.currentDays + zrSpan st := by
  refine ⟨getNextZrSign_ne, rfl, getNextSign_getNextZrSign, ?_, ?_, ?_, ?_⟩
  · intro hdesc
    simp only [zrLoopBody, if_pos hdesc]
    refine ⟨trivial, trivial, fun h4 => ?_⟩
    rw [if_pos h4]
    exact ⟨rfl, getNextZrSign_ne st.currentSign⟩
  · intro hadv
    simp only [zrLoopBody, if_neg (not_lt.2 hadv)]
    exact ⟨trivial, trivial, trivial⟩
  · simp only [zrLoopBody]
    split <;> rfl
  · simp only [zrLoopBody]
    split <;> rfl

/-- C5 witness: a concrete running iteration — level 1, Leo, day 0, query at
day 100 (inside the 19×360-day Leo span) — descends to level 2 starting at
Cancer. -/
theorem zr_walk_step_witness :
    (∀ s : Sign, getNextZrSign s ≠ s) ∧
    getNextSign Pisces = Aries ∧
    (∀ s : Sign, getNextSign (getNextZrSign s) = s) ∧
    ((100 : ℚ) < (0 : ℚ) + zrSpan ⟨0, Leo, 1⟩ →
      (zrLoopBody (fun _ => false) 100 ⟨0, Leo, 1⟩).2.level = 1 + 1 ∧
      (zrLoopBody (fun _ => false) 100 ⟨0, Leo, 1⟩).2.currentDays = (0 : ℚ) ∧
      (1 + 1 ≤ 4 →
        (zrLoopBody (fun _ => false) 100 ⟨0, Leo, 1⟩).2.currentSign = getNextZrSign Leo ∧
        (zrLoopBody (fun _ => false) 100 ⟨0, Leo, 1⟩).2.currentSign ≠ Leo)) ∧
    ((0 : ℚ) + zrSpan ⟨0, Leo, 1⟩ ≤ 100 →
      (zrLoopBody (fun _ => false) 100 ⟨0, Leo, 1⟩).2.level = 1 ∧
      (zrLoopBody (fun _ => false) 100 ⟨0, Leo, 1⟩).2.currentDays = (0 : ℚ) + zrSpan ⟨0, Leo, 1⟩ ∧
      (zrLoopBody (fun _ => false) 100 ⟨0, Leo, 1⟩).2.currentSign = getNextSign Leo) ∧
    (zrLoopBody (fun _ => false) 100 ⟨0, Leo, 1⟩).1.start_days = (0 : ℚ) ∧
    (zrLoopBody (fun _ => false) 100 ⟨0, Leo, 1⟩).1.end_days = (0 : ℚ) + zrSpan ⟨0, Leo, 1⟩ :=
  zr_walk_step (fun _ => false) 100 ⟨0, Leo, 1⟩ (by norm_num) (by norm_num)

lemma firdariaLoop_isSome (y : ℚ) (seq : List (Body × ℚ)) :
    ∀ c : ℚ, (∀ p ∈ seq, 0 ≤ p.2) →
      ((firdariaLoop y seq c).isSome = true ↔
        c ≤ y ∧ y < c + (seq.map Prod.snd).sum) := by
  induction seq with
  | nil =>
    intro c _
    simp only [firdariaLoop, Option.isSome_none, List.map_nil, List.sum_nil, add_zero]
    constructor
    · intro h; cases h
    · intro h; linarith [h.1, h.2]
  | cons p rest ih =>
    intro c hnn
    obtain ⟨b, yr⟩ := p
    have hyr : 0 ≤ yr := hnn (b, yr) (List.mem_cons_self _ _)
    have hrest : ∀ q ∈ rest, 0 ≤ q.2 := fun q hq => hnn q (List.mem_cons_of_mem _ hq)
    have hsum : 0 ≤ (rest.map Prod.snd).sum := by
      apply List.sum_nonneg
      intro x hx
      obtain ⟨q, hq, rfl⟩ := List.mem_map.1 hx
      exact hrest q hq
    simp only [firdariaLoop, List.map_cons, List.sum_cons]
    split_ifs with h
    · simp only [Option.isSome_some, true_iff]
      exact ⟨h.1, by linarith [h.2]⟩
    · rw [ih (c + yr) hrest]
      push_neg at h
      constructor
      · rintro ⟨h1, h2⟩
        exact ⟨by linarith, by linarith⟩
      · rintro ⟨h1, h2⟩
        exact ⟨h h1, by linarith⟩

lemma calculate_firdaria_isSome (sunLon ascLon : ℚ) (d : ℤ) :
    (calculate_firdaria sunLon ascLon d).isSome = true ↔
      (0 ≤ (d : ℚ) / 365.25 ∧ (d : ℚ) / 365.25 < 75) := by
  unfold calculate_firdaria
  rcases Bool.eq_false_or_eq_true (firdaria_is_day_birth sunLon ascLon) with hb | hb <;>
    rw [hb]
  · rw [if_pos rfl]
    rw [firdariaLoop_isSome _ firdariaDaySequence 0 (by decide)]
    have hs : (firdariaDaySequence.map Prod.snd).sum = 75 := by
      norm_num [firdariaDaySequence]
    rw [hs, zero_add]
  · rw [if_neg (by simp)]
    rw [firdariaLoop_isSome _ firdariaNightSequence 0 (by decide)]
    have hs : (firdariaNightSequence.map Prod.snd).sum = 75 := by
      norm_num [firdariaNightSequence]
    rw [hs, zero_add]

lemma dashaAt_years_ge (idx : ℕ) : 6 ≤ (dashaSequence.getD idx (ketu, 7)).2 := by
  rcases lt_or_ge idx 9 with h | h
  · interval_cases idx <;> norm_num [dashaSequence]
  · rw [List.getD_eq_default]
    · norm_num
    · simpa [dashaSequence] using h

lemma find?_isSome_of_mem {α : Type} (l : List α) (p : α → Bool) (e : α)
    (he : e ∈ l) (hp : p e = true) : (l.find? p).isSome = true := by
  induction l with
  | nil => cases he
  | cons a l ih =>
    rcases List.mem_cons.1 he with rfl | h
    · rw [List.find?_cons_of_pos _ hp]
      rfl
    · cases hpa : p a
      · rw [List.find?_cons_of_neg _ (by simp [hpa])]
        exact ih h
      · rw [List.find?_cons_of_pos _ hpa]
        rfl

lemma buildDashasAux_mem (target : ℚ) (ht : 0 ≤ target) :
    ∀ (fuel : ℕ) (currentEnd : ℚ) (idx : ℕ) (acc : List DashaEntry),
      target + 3650 ≤ currentEnd + (fuel : ℚ) * 2191 →
      (target < currentEnd → ∃ e ∈ acc, e.start ≤ target ∧ target < e.stop) →
      ∃ e ∈ buildDashasAux target fuel currentEnd idx acc,
        e.start ≤ target ∧ target < e.stop := by
  intro fuel
  induction fuel with
  | zero =>
    intro currentEnd idx acc hbound hacc
    simp only [buildDashasAux]
    apply hacc
    push_cast at hbound
    linarith
  | succ fuel ih =>
    intro currentEnd idx acc hbound hacc
    simp only [buildDashasAux]
    split_ifs with h
    · apply ih
      · have h6 : 6 ≤ (dashaSequence.getD idx (ketu, 7)).2 := dashaAt_years_ge idx
        have hm : (6 : ℚ) * 365.25 ≤ (dashaSequence.getD idx (ketu, 7)).2 * 365.25 :=
          mul_le_mul_of_nonneg_right h6 (by norm_num)
        push_cast at hbound ⊢
        linarith
      · intro hlt
        rcases lt_or_ge target currentEnd with hc | hc
        · obtain ⟨e, hmem, hprop⟩ := hacc hc
          exact ⟨e, List.mem_append_left _ hmem, hprop⟩
        · refine ⟨⟨(dashaSequence.getD idx (ketu, 7)).1, currentEnd,
            currentEnd + (dashaSequence.getD idx (ketu, 7)).2 * 365.25,
            (dashaSequence.getD idx (ketu, 7)).2⟩,
            List.mem_append_right _ (List.mem_singleton_self _), hc, hlt⟩
    · push_neg at h
      apply hacc
      linarith

lemma vim_timeline_isSome (r : Body) (firstIdx : ℕ) (remaining t : ℚ)
    (hrem : 0 < remaining) (ht : 0 ≤ t) :
    (findCurrentDasha (buildDashas r firstIdx remaining t (vimFuel t)) t).isSome = true := by
  have hceil : t ≤ (((⌈t⌉).toNat : ℕ) : ℚ) := by
    have h1 : (0 : ℤ) ≤ ⌈t⌉ := Int.ceil_nonneg ht
    have h2 : t ≤ ((⌈t⌉ : ℤ) : ℚ) := Int.le_ceil t
    rw [show (((⌈t⌉).toNat : ℕ) : ℚ) = ((⌈t⌉ : ℤ) : ℚ) by exact_mod_cast congrArg Int.cast (Int.toNat_of_nonneg h1)]
    exact h2
  obtain ⟨e, hmem, h1, h2⟩ :=
    buildDashasAux_mem t ht (vimFuel t) (remaining * 365.25) ((firstIdx + 1) % 9)
      [⟨r, 0, remaining * 365.25, remaining⟩]
      (by
        unfold vimFuel
        push_cast
        have htt : t ≤ t * 2191 := by nlinarith
        nlinarith [hceil])
      (by
        intro hlt
        exact ⟨⟨r, 0, remaining * 365.25, remaining⟩, List.mem_singleton_self _, ht, hlt⟩)
  exact find?_isSome_of_mem _ _ e hmem (by simp [h1, h2])

/-- C3 (amended): no OutOfDomainError exists anywhere in the code.  The
Firdaria resolver walks its 75-year sequence exactly once and yields an
active ruler precisely when the elapsed years lie in [0, 75) — it returns
None both for pre-birth instants and for any instant at least 75 years after
birth (no cyclic wrap).  The Vimshottari resolver does wrap its 120-year
cycle: for every query instant at or after birth its timeline search finds a
containing major period, however far in the future. -/
theorem resolver_domain_and_wrap :
    (∀ (sunLon ascLon : ℚ) (d : ℤ),
      (calculate_firdaria sunLon ascLon d).isSome = true ↔
        (0 ≤ (d : ℚ) / 365.25 ∧ (d : ℚ) / 365.25 < 75)) ∧
    (∀ (r : Body) (firstIdx : ℕ) (remaining t : ℚ), 0 < remaining → 0 ≤ t →
      (findCurrentDasha (buildDashas r firstIdx remaining t (vimFuel t)) t).isSome = true) :=
  ⟨calculate_firdaria_isSome,
   fun r i rem t h1 h2 => vim_timeline_isSome r i rem t h1 h2⟩

/-- C3 witness: at 10 years after birth (3652 days) the Firdaria
characterization applies, and the Vimshottari timeline for a Ketu start with
7 remaining years resolves day 100. -/
theorem resolver_domain_and_wrap_witness :
    ((calculate_firdaria 100 50 3652).isSome = true ↔
      (0 ≤ ((3652 : ℤ) : ℚ) / 365.25 ∧ ((3652 : ℤ) : ℚ) / 365.25 < 75)) ∧
    (findCurrentDasha (buildDashas ketu 0 7 100 (vimFuel 100)) 100).isSome = true :=
  ⟨resolver_domain_and_wrap.1 100 50 3652,
   resolver_domain_and_wrap.2 ketu 0 7 100 (by norm_num) (by norm_num)⟩

/-- C3 counterexample: 29220 days = exactly 80 years after birth is a query
instant after birth at which the claim promises a successful resolution by
cyclic wrap, yet `calculate_firdaria` returns None. -/
theorem firdaria_no_wrap_at_80_years :
    calculate_firdaria 100 50 29220 = none ∧ (0 : ℤ) ≤ 29220 ∧
    ((29220 : ℤ) : ℚ) / 365.25 = 80 := by
  refine ⟨?_, by norm_num, by norm_num⟩
  have hday : firdaria_is_day_birth 100 50 = true := by
    simp only [firdaria_is_day_birth, Bool.or_eq_true, decide_eq_true_eq]
    norm_num
  have hyears : ((29220 : ℤ) : ℚ) / 365.25 = 80 := by norm_num
  unfold calculate_firdaria
  rw [hday, if_pos rfl, hyears]
  simp only [firdariaDaySequence, firdariaLoop]
  norm_num

lemma dashaYearsTable_nonneg (b : Body) : 0 ≤ dashaYearsTable b := by
  cases b <;> norm_num [dashaYearsTable]

lemma dashaYearsTable_sum_nonneg (seq : List Body) :
    0 ≤ (seq.map dashaYearsTable).sum := by
  apply List.sum_nonneg
  intro x hx
  obtain ⟨q, _, rfl⟩ := List.mem_map.1 hx
  exact dashaYearsTable_nonneg q

lemma antardashaLoop_eq_plain (m : Mahadasha) (hy : 0 ≤ m.years) :
    ∀ (seq : List Body) (cs : ℚ),
      cs + (seq.map dashaYearsTable).sum * m.years / 120 * 365.25 ≤ m.stop →
      antardashaLoop m seq cs = antardashaPlain m seq cs := by
  intro seq
  induction seq with
  | nil => intro cs _; rfl
  | cons p rest ih =>
    intro cs hle
    have hsum : 0 ≤ (rest.map dashaYearsTable).sum := dashaYearsTable_sum_nonneg rest
    simp only [List.map_cons, List.sum_cons] at hle
    have hexp : (dashaYearsTable p + (rest.map dashaYearsTable).sum) * m.years / 120 * 365.25 =
        dashaYearsTable p * m.years / 120 * 365.25 +
        (rest.map dashaYearsTable).sum * m.years / 120 * 365.25 := by ring
    have htail : 0 ≤ (rest.map dashaYearsTable).sum * m.years / 120 * 365.25 :=
      mul_nonneg (div_nonneg (mul_nonneg hsum hy) (by norm_num)) (by norm_num)
    have hstop : cs + dashaYearsTable p * m.years / 120 * 365.25 ≤ m.stop := by
      rw [hexp] at hle
      linarith
    simp only [antardashaLoop, antardashaPlain]
    rw [if_neg (not_lt.2 hstop)]
    congr 1
    apply ih
    rw [hexp] at hle
    linarith

lemma antardashaPlain_length (m : Mahadasha) :
    ∀ (seq : List Body) (cs : ℚ), (antardashaPlain m seq cs).length = seq.length := by
  intro seq
  induction seq with
  | nil => intro cs; rfl
  | cons p rest ih => intro cs; simp [antardashaPlain, ih]

lemma antardashaPlain_sum (m : Mahadasha) :
    ∀ (seq : List Body) (cs : ℚ),
      ((antardashaPlain m seq cs).map Antardasha.years).sum =
        (seq.map dashaYearsTable).sum * m.years / 120 := by
  intro seq
  induction seq with
  | nil => intro cs; simp [antardashaPlain]
  | cons p rest ih =>
    intro cs
    simp only [antardashaPlain, List.map_cons, List.sum_cons, ih]
    ring

lemma antardashaPlain_mem (m : Mahadasha) (hy : 0 ≤ m.years) :
    ∀ (seq : List Body) (cs : ℚ) (a : Antardasha), a ∈ antardashaPlain m seq cs →
      cs ≤ a.start ∧ a.stop = a.start + a.years * 365.25 ∧ 0 ≤ a.years := by
  intro seq
  induction seq with
  | nil => intro cs a ha; simp [antardashaPlain] at ha
  | cons p rest ih =>
    intro cs a ha
    have hynn : 0 ≤ dashaYearsTable p * m.years / 120 :=
      div_nonneg (mul_nonneg (dashaYearsTable_nonneg p) hy) (by norm_num)
    simp only [antardashaPlain, List.mem_cons] at ha
    rcases ha with rfl | ha
    · exact ⟨le_refl _, rfl, hynn⟩
    · obtain ⟨h1, h2, h3⟩ := ih (cs + dashaYearsTable p * m.years / 120 * 365.25) a ha
      refine ⟨?_, h2, h3⟩
      have : 0 ≤ dashaYearsTable p * m.years / 120 * 365.25 :=
        mul_nonneg hynn (by norm_num)
      linarith

lemma antardashaPlain_chain (m : Mahadasha) :
    ∀ (seq : List Body) (cs : ℚ),
      List.Chain' (fun a b => a.stop = b.start) (antardashaPlain m seq cs) := by
  intro seq
  induction seq with
  | nil => intro cs; simp [antardashaPlain]
  | cons p rest ih =>
    intro cs
    rw [show antardashaPlain m (p :: rest) cs =
        (⟨p, cs, cs + dashaYearsTable p * m.years / 120 * 365.25,
          dashaYearsTable p * m.years / 120⟩ : Antardasha) ::
        antardashaPlain m rest (cs + dashaYearsTable p * m.years / 120 * 365.25)
      from rfl]
    rw [List.chain'_cons']
    constructor
    · intro b hb
      cases rest with
      | nil => simp [antardashaPlain] at hb
      | cons q rest2 =>
        rw [show antardashaPlain m (q :: rest2)
              (cs + dashaYearsTable p * m.years / 120 * 365.25) =
            (⟨q, cs + dashaYearsTable p * m.years / 120 * 365.25,
              cs + dashaYearsTable p * m.years / 120 * 365.25 +
                dashaYearsTable q * m.years / 120 * 365.25,
              dashaYearsTable q * m.years / 120⟩ : Antardasha) ::
            antardashaPlain m rest2
              (cs + dashaYearsTable p * m.years / 120 * 365.25 +
                dashaYearsTable q * m.years / 120 * 365.25)
          from rfl] at hb
        simp only [List.head?_cons, Option.mem_some_iff] at hb
        subst hb
        rfl
    · exact ih _

lemma antardashaPlain_pairwise (m : Mahadasha) (hy : 0 ≤ m.years) :
    ∀ (seq : List Body) (cs : ℚ),
      List.Pairwise (fun a b => a.stop ≤ b.start) (antardashaPlain m seq cs) := by
  intro seq
  induction seq with
  | nil => intro cs; simp [antardashaPlain]
  | cons p rest ih =>
    intro cs
    rw [show antardashaPlain m (p :: rest) cs =
        (⟨p, cs, cs + dashaYearsTable p * m.years / 120 * 365.25,
          dashaYearsTable p * m.years / 120⟩ : Antardasha) ::
        antardashaPlain m rest (cs + dashaYearsTable p * m.years / 120 * 365.25)
      from rfl]
    refine List.Pairwise.cons ?_ (ih _)
    intro b hb
    exact (antardashaPlain_mem m hy rest _ b hb).1

lemma antardashaRotation_sum (lord : Body) :
    ((antardashaRotation lord).map dashaYearsTable).sum = 120 := by
  unfold antardashaRotation
  have hperm : ((vimSequence.drop (vimSequence.indexOf lord) ++
      vimSequence.take (vimSequence.indexOf lord)).map dashaYearsTable).Perm
      ((vimSequence.take (vimSequence.indexOf lord) ++
        vimSequence.drop (vimSequence.indexOf lord)).map dashaYearsTable) :=
    List.perm_append_comm.map _
  rw [hperm.sum_eq, List.take_append_drop]
  norm_num [vimSequence, dashaYearsTable]

lemma antardashaRotation_length (lord : Body) : (antardashaRotation lord).length = 9 := by
  have h : vimSequence.indexOf lord ≤ 9 := by
    have h0 := List.indexOf_le_length (a := lord) (l := vimSequence)
    simpa [vimSequence] using h0
  unfold antardashaRotation
  rw [List.length_append, List.length_drop, List.length_take]
  have hl : vimSequence.length = 9 := rfl
  rw [hl]
  omega

/-- C6: the 9 antardashas generated for a mahadasha are contiguous
(each sibling's end is the next sibling's start), non-overlapping, and their
proportional years sum exactly to the mahadasha's years; and the 7 implicit
Firdaria sub-periods (boundaries every totalYears/7, as returned by
`_calculate_firdaria_subperiod`) are contiguous, cover the major period
exactly, and every instant of the k-th sub-interval resolves to the
sub-period of length totalYears/7 at 1-based position k+1. -/
theorem sibling_partition (m : Mahadasha) (hmem : m.mahadasha ∈ vimSequence)
    (hstop : m.stop = m.start + m.years * 365.25) (hy : 0 ≤ m.years) :
    (calculate_antardasha m).length = 9 ∧
    List.Chain' (fun a b => a.stop = b.start) (calculate_antardasha m) ∧
    List.Pairwise (fun a b => a.stop ≤ b.start) (calculate_antardasha m) ∧
    ((calculate_antardasha m).map Antardasha.years).sum = m.years ∧
    (∀ (total : ℚ) (k : ℕ),
      firdariaSubStart total (k + 1) = firdariaSubStart total k + total / 7) ∧
    (∀ total : ℚ, ((List.range 7).map (fun _ => total / 7)).sum = total) ∧
    (∀ (major : Body) (total yIn : ℚ) (k : ℕ), 0 < total → k < 7 →
      firdariaSubStart total k ≤ yIn → yIn < firdariaSubStart total (k + 1) →
      ∃ sp : SubPeriod, calculate_firdaria_subperiod major total yIn = some sp ∧
        sp.years = total / 7 ∧ sp.position = (k : ℤ) + 1) := by
  have h120 : (120 : ℚ) * m.years / 120 * 365.25 = m.years * 365.25 := by ring
  have heq : calculate_antardasha m =
      antardashaPlain m (antardashaRotation m.mahadasha) m.start := by
    apply antardashaLoop_eq_plain m hy
    rw [antardashaRotation_sum m.mahadasha, h120, hstop]
  refine ⟨?_, ?_, ?_, ?_, ?_, ?_, ?_⟩
  · rw [heq, antardashaPlain_length, antardashaRotation_length]
  · rw [heq]; exact antardashaPlain_chain m _ m.start
  · rw [heq]; exact antardashaPlain_pairwise m hy _ m.start
  · rw [heq, antardashaPlain_sum, antardashaRotation_sum]; ring
  · intro total k
    unfold firdariaSubStart
    push_cast
    ring
  · intro total
    have h : ((List.range 7).map (fun _ => total / 7)) = List.replicate 7 (total / 7) := by
      simp [List.eq_replicate_iff]
    rw [h, List.sum_replicate, nsmul_eq_mul]
    push_cast
    ring
  · intro major total yIn k hpos hk7 hk1 hk2
    have h7 : (0 : ℚ) < total / 7 := by positivity
    have h0 : 0 ≤ yIn := by
      refine le_trans ?_ hk1
      unfold firdariaSubStart
      exact mul_nonneg (by positivity) (div_nonneg hpos.le (by norm_num))
    have hlt : yIn < total := by
      have hup : ((k : ℚ) + 1) * (total / 7) ≤ 7 * (total / 7) := by
        apply mul_le_mul_of_nonneg_right _ h7.le
        have : (k : ℚ) + 1 ≤ 7 := by exact_mod_cast hk7
        exact this
      have h77 : (7 : ℚ) * (total / 7) = total := by ring
      unfold firdariaSubStart at hk2
      push_cast at hk2
      linarith
    have htr : pyTrunc (yIn / (total / 7)) = k := by
      apply pyTrunc_div_subinterval total yIn k hpos
      · unfold firdariaSubStart at hk1; exact_mod_cast hk1
      · unfold firdariaSubStart at hk2; push_cast at hk2; exact hk2
    obtain ⟨_, _, r, hr1, hr2⟩ := firdaria_subperiod_eval major total yIn hpos h0 hlt
    refine ⟨⟨r, total / 7, pyTrunc (yIn / (total / 7)) + 1⟩, hr2, rfl, ?_⟩
    rw [htr]

/-- C6 witness: the Venus mahadasha (20 years, days 0 to 7305) and the
8-year Firdaria major period at 3 years in (sub-interval 2). -/
theorem sibling_partition_witness :
    (calculate_antardasha ⟨venus, 0, 7305, 20⟩).length = 9 ∧
    List.Chain' (fun a b => a.stop = b.start) (calculate_antardasha ⟨venus, 0, 7305, 20⟩) ∧
    List.Pairwise (fun a b => a.stop ≤ b.start) (calculate_antardasha ⟨venus, 0, 7305, 20⟩) ∧
    ((calculate_antardasha ⟨venus, 0, 7305, 20⟩).map Antardasha.years).sum = 20 ∧
    (∀ (total : ℚ) (k : ℕ),
      firdariaSubStart total (k + 1) = firdariaSubStart total k + total / 7) ∧
    (∀ total : ℚ, ((List.range 7).map (fun _ => total / 7)).sum = total) ∧
    (∃ sp : SubPeriod, calculate_firdaria_subperiod venus 8 3 = some sp ∧
      sp.years = 8 / 7 ∧ sp.position = (2 : ℤ) + 1) := by
  obtain ⟨h1, h2, h3, h4, h5, h6, h7⟩ :=
    sibling_partition ⟨venus, 0, 7305, 20⟩ (by decide) (by norm_num) (by norm_num)
  exact ⟨h1, h2, h3, h4, h5, h6,
    h7 venus 8 3 2 (by norm_num) (by norm_num)
      (by unfold firdariaSubStart; norm_num)
      (by unfold firdariaSubStart; norm_num)⟩

/-- C7: evaluation of the first-Mahadasha computation.  At tropical Moon
longitude 24.1199995° — inside [0°, 360°) — the sidereal longitude is
359.9999995°, the nakshatra index computed with the source's truncated band
constant 13.333333 is 27, and the lookup in the 27-entry ruler list fails
(IndexError, embedded as `none`), although the code's own "27 lunar
mansions" comment and 27-entry table require an index in [0, 26].  Away from
that sliver the claim's behaviour holds: Scenario A's Moon (tropical
69.4533322°, sidereal band index 3, 40% elapsed through the band, band ruler
moon with 10 years) yields first ruler moon with 6 years remaining. -/
theorem nakshatra_band_edge_bug :
    vimshottariFirstDasha (241199995 / 10000000 : ℚ) = none ∧
    (0 : ℚ) ≤ 241199995 / 10000000 ∧ (241199995 / 10000000 : ℚ) < 360 ∧
    moonSidereal (241199995 / 10000000 : ℚ) = 3599999995 / 10000000 ∧
    pyTrunc ((3599999995 / 10000000 : ℚ) / bandWidth) = 27 ∧
    nakshatraRulers.length = 27 ∧
    vimshottariFirstDasha (694533322 / 10000000 : ℚ) = some ⟨moon, 6⟩ ∧
    pyTrunc ((453333322 / 10000000 : ℚ) / bandWidth) = 3 ∧
    pyMod (453333322 / 10000000 : ℚ) bandWidth / bandWidth = 2 / 5 := by
  have hsid : moonSidereal (241199995 / 10000000 : ℚ) = 3599999995 / 10000000 := by
    unfold moonSidereal ayanamsa
    norm_num
  have htr : pyTrunc ((3599999995 / 10000000 : ℚ) / bandWidth) = 27 := by
    unfold pyTrunc bandWidth
    norm_num
  have hget : pyListGet nakshatraRulers 27 = none := by decide
  have hsid2 : moonSidereal (694533322 / 10000000 : ℚ) = 453333322 / 10000000 := by
    unfold moonSidereal ayanamsa
    norm_num
  have htr2 : pyTrunc ((453333322 / 10000000 : ℚ) / bandWidth) = 3 := by
    unfold pyTrunc bandWidth
    norm_num
  have hget2 : pyListGet nakshatraRulers 3 = some moon := by decide
  have hmod : pyMod (453333322 / 10000000 : ℚ) bandWidth / bandWidth = 2 / 5 := by
    unfold pyMod bandWidth
    norm_num
  refine ⟨?_, by norm_num, by norm_num, hsid, htr, by decide, ?_, htr2, hmod⟩
  · unfold vimshottariFirstDasha
    rw [hsid]
    simp only [htr, hget, Option.map_none']
  · unfold vimshottariFirstDasha
    rw [hsid2]
    have hfind : dashaSequence.findIdx (fun p => p.1 == moon) = 3 := by decide
    have hgetD : (dashaSequence.getD 3 (ketu, 7)).2 = 10 := by
      norm_num [dashaSequence]
    simp only [htr2, hget2, Option.map_some', hfind, hgetD, hmod]
    norm_num

lemma eclipseScore_eq (hits : List EclipseHit) (current : ℤ) :
    eclipseScore hits current =
      10 * (hits.filter (fun e => (e.date - current).natAbs < 30)).length := by
  suffices h : ∀ (l : List EclipseHit) (s : ℕ),
      l.foldl (fun s e => if (e.date - current).natAbs < 30 then s + 10 else s) s =
        s + 10 * (l.filter (fun e => (e.date - current).natAbs < 30)).length by
    unfold eclipseScore
    simpa using h hits 0
  intro l
  induction l with
  | nil => intro s; simp
  | cons e rest ih =>
    intro s
    simp only [List.foldl_cons, List.filter_cons]
    by_cases h : (e.date - current).natAbs < 30
    · rw [if_pos h, if_pos (by simp [h]), ih, List.length_cons]
      ring
    · rw [if_neg h, if_neg (by simp [h]), ih]

lemma compositeScore_decomp (transits : List Transit) (dashaRuler : Body)
    (firdariaRuler : Option Body) (eph : ℤ → ℚ × ℚ × ℚ)
    (nSun nMoon nAsc nMc : ℚ) (now current : ℤ) :
    compositeScoreForDate transits dashaRuler firdariaRuler eph nSun nMoon nAsc nMc
        now current =
      compositeBaseScore transits dashaRuler firdariaRuler +
        10 * eclipseProximityCount eph nSun nMoon nAsc nMc now current := by
  unfold compositeScoreForDate compositeBaseScore eclipseProximityCount
  simp only [eclipseScore_eq]

/-- C8 (amended): the per-date intensity score is 3 per hard transit
(square or opposition), +5 for a malefic Vimshottari lord, +4 for a malefic
Firdaria lord, plus 10 per eclipse-sensitivity *entry* (one entry per
detected eclipse date × natal point within the 5° orb) whose date is within
30 days; and the claim's Scenario C holds: two hard transits, a malefic
Vimshottari lord, a non-malefic Firdaria lord and no eclipse proximity score
2×3 + 5 = 11. -/
theorem composite_score_formula :
    (∀ (transits : List Transit) (dashaRuler : Body) (firdariaRuler : Option Body)
        (eph : ℤ → ℚ × ℚ × ℚ) (nSun nMoon nAsc nMc : ℚ) (now current : ℤ),
      compositeScoreForDate transits dashaRuler firdariaRuler eph nSun nMoon nAsc nMc
          now current =
        (transits.filter
          (fun t => t.aspect == Aspect.square || t.aspect == Aspect.opposition)).length * 3
        + (if dashaRuler ∈ [mars, saturn, rahu, ketu] then 5 else 0)
        + (if firdariaRuler ∈ [some mars, some saturn, some south_node] then 4 else 0)
        + 10 * eclipseProximityCount eph nSun nMoon nAsc nMc now current) ∧
    compositeScoreForDate
      [⟨sun, moon, Aspect.square⟩, ⟨mars, venus, Aspect.opposition⟩]
      saturn (some jupiter) (fun _ => (0, 0, 100)) 0 2 200 300 0 0 = 11 := by
  constructor
  · intro transits dashaRuler firdariaRuler eph nSun nMoon nAsc nMc now current
    exact compositeScore_decomp transits dashaRuler firdariaRuler eph nSun nMoon nAsc nMc
      now current
  · have hdays : eclipseCheckDays = [0, 173, 346, 519, 692] := by
      set_option maxRecDepth 10000 in decide
    have hecl : eclipseSensitivity (fun _ => (0, 0, 100)) 0 2 200 300 0 = [] := by
      unfold eclipseSensitivity
      rw [hdays]
      norm_num [List.foldl_cons, List.foldl_nil, abs_sub_lt_iff]
    unfold compositeScoreForDate
    rw [hecl]
    decide

/-- C8 counterexample: with the constant ephemeris putting the Sun on the
node at longitude 0 and both the natal Sun and natal Moon at longitude 0,
the single eclipse date within 30 days of the scored date produces two
sensitive-point entries, and the score is 20, not the 10 the per-eclipse
reading of the claim gives. -/
theorem composite_double_counts_one_eclipse :
    compositeScoreForDate [] sun none (fun _ => (0, 0, 0)) 0 0 200 300 0 0 = 20 ∧
    (((eclipseSensitivity (fun _ => (0, 0, 0)) 0 0 200 300 0).filter
        (fun e => (e.date - 0).natAbs < 30)).map EclipseHit.date).dedup.length = 1 := by
  have hdays : eclipseCheckDays = [0, 173, 346, 519, 692] := by
    set_option maxRecDepth 10000 in decide
  have hecl : eclipseSensitivity (fun _ => (0, 0, 0)) 0 0 200 300 0 =
      [⟨0, 0, PointId.psun, 0, 0⟩, ⟨0, 0, PointId.pmoon, 0, 0⟩,
       ⟨173, 0, PointId.psun, 0, 0⟩, ⟨173, 0, PointId.pmoon, 0, 0⟩,
       ⟨346, 0, PointId.psun, 0, 0⟩, ⟨346, 0, PointId.pmoon, 0, 0⟩,
       ⟨519, 0, PointId.psun, 0, 0⟩, ⟨519, 0, PointId.pmoon, 0, 0⟩,
       ⟨692, 0, PointId.psun, 0, 0⟩, ⟨692, 0, PointId.pmoon, 0, 0⟩] := by
    unfold eclipseSensitivity
    rw [hdays]
    norm_num [List.foldl_cons, List.foldl_nil, abs_sub_lt_iff]
  constructor
  · unfold compositeScoreForDate
    rw [hecl]
    decide
  · rw [hecl]
    decide

/-- C9 (amended): for fixed explicit inputs (natal data, transit list,
resolved rulers, ephemeris data, scored date) the composite intensity score
varies with the wall-clock instant `now` only through the eclipse-proximity
entry count: two invocations differing only in `now` differ by exactly ten
times the difference of their eclipse-proximity entry counts; the remaining
summands are wall-clock independent. -/
theorem composite_clock_dependence_isolated :
    ∀ (transits : List Transit) (dashaRuler : Body) (firdariaRuler : Option Body)
      (eph : ℤ → ℚ × ℚ × ℚ) (nSun nMoon nAsc nMc : ℚ) (now1 now2 current : ℤ),
      ((compositeScoreForDate transits dashaRuler firdariaRuler eph nSun nMoon nAsc nMc
          now1 current : ℤ) -
        compositeScoreForDate transits dashaRuler firdariaRuler eph nSun nMoon nAsc nMc
          now2 current) =
      10 * ((eclipseProximityCount eph nSun nMoon nAsc nMc now1 current : ℤ) -
        eclipseProximityCount eph nSun nMoon nAsc nMc now2 current) := by
  intro transits dashaRuler firdariaRuler eph nSun nMoon nAsc nMc now1 now2 current
  rw [compositeScore_decomp transits dashaRuler firdariaRuler eph nSun nMoon nAsc nMc
      now1 current,
    compositeScore_decomp transits dashaRuler firdariaRuler eph nSun nMoon nAsc nMc
      now2 current]
  push_cast
  ring

/-- C9 counterexample: two invocations of the composite scorer with
identical explicit inputs (empty transit list, Sun dasha lord, no Firdaria
lord, the same constant ephemeris, the same natal longitudes, the same
scored date 0) return different scores, 10 and 0, when the wall-clock read
`datetime.now()` differs (day 0 versus day 50). -/
theorem composite_reads_wall_clock :
    compositeScoreForDate [] sun none (fun _ => (0, 0, 0)) 0 100 200 300 0 0 = 10 ∧
    compositeScoreForDate [] sun none (fun _ => (0, 0, 0)) 0 100 200 300 50 0 = 0 := by
  have hdays : eclipseCheckDays = [0, 173, 346, 519, 692] := by
    set_option maxRecDepth 10000 in decide
  have hecl1 : eclipseSensitivity (fun _ => (0, 0, 0)) 0 100 200 300 0 =
      [⟨0, 0, PointId.psun, 0, 0⟩, ⟨173, 0, PointId.psun, 0, 0⟩,
       ⟨346, 0, PointId.psun, 0, 0⟩, ⟨519, 0, PointId.psun, 0, 0⟩,
       ⟨692, 0, PointId.psun, 0, 0⟩] := by
    unfold eclipseSensitivity
    rw [hdays]
    norm_num [List.foldl_cons, List.foldl_nil, abs_sub_lt_iff]
  have hecl2 : eclipseSensitivity (fun _ => (0, 0, 0)) 0 100 200 300 50 =
      [⟨50, 0, PointId.psun, 0, 0⟩, ⟨223, 0, PointId.psun, 0, 0⟩,
       ⟨396, 0, PointId.psun, 0, 0⟩, ⟨569, 0, PointId.psun, 0, 0⟩,
       ⟨742, 0, PointId.psun, 0, 0⟩] := by
    unfold eclipseSensitivity
    rw [hdays]
    norm_num [List.foldl_cons, List.foldl_nil, abs_sub_lt_iff]
  constructor
  · unfold compositeScoreForDate
    rw [hecl1]
    decide
  · unfold compositeScoreForDate
    rw [hecl2]
    decide
